import Mathlib

/-!
Shallow embedding of the System Health Monitoring Engine of
`scripts/windows_system_info_enhanced.py` and `scripts/notifications.py`.

Modelling conventions:
* Instants (`datetime.now().isoformat()` strings) are modelled as `Nat`
  seconds; ISO-8601 strings of a fixed format compare chronologically, so
  `Nat` order is faithful to the SQL/string comparisons in the source.
* Floating point gauges are modelled as `ℚ`.
* Each `self.logger.<level>(...)` call site is one constructor of `LogEvent`;
  a run of a function returns the list of events it logged, in order.
* The SQLite database is a `DB` record of the two tables created by
  `_init_database`, with the `AUTOINCREMENT` counters made explicit.
* I/O probes (psutil, WMI) are inputs: a cycle receives a `CollectorInput`
  holding what the probes would have returned (`none` / `.error` where the
  probe raised).
-/

namespace SysMon

/-- One `self.logger.<level>(...)` call site of the monitoring engine.
Constructor order follows source order in `windows_system_info_enhanced.py`. -/
inductive LogEvent where
  /-- Call site `logger.info(f"Configuration loaded from {config_file}")` -/
  | configLoaded (file : String)
  /-- Call site `logger.warning(f"Config file {config_file} not found, using defaults")` -/
  | configNotFound (file : String)
  /-- Call site `logger.info("Collecting system information...")` -/
  | collectingInfo
  /-- Call site `logger.warning(f"Could not read partition {partition.mountpoint}: {e}")` -/
  | partitionReadFailed (mountpoint : String)
  /-- Call site `logger.error(f"Error checking service {service}: {e}")` -/
  | serviceCheckError (service : String) (err : String)
  /-- Call site `logger.warning(f"High CPU usage: {cpu_percent}% (threshold: {cpu_threshold}%)")` -/
  | highCpu (cpu threshold : ℚ)
  /-- Call site `logger.warning(f"High memory usage: {memory_percent}% (threshold: {memory_threshold}%)")` -/
  | highMemory (mem threshold : ℚ)
  /-- Call site `logger.info("System information collected successfully")` -/
  | infoCollected
  /-- Call site `logger.info(f"System info exported to {filepath}")` -/
  | exportedTo (path : String)
  /-- Call site `logger.error(f"Unsupported format: {format_type}")` -/
  | exportUnsupported (format : String)
  /-- Call site `logger.debug("Metrics stored in database")` -/
  | metricsStored
  /-- Call site `logger.error(f"Failed to store metrics: {e}")` -/
  | storeFailed (err : String)
  /-- Call site `logger.debug("Alerting is disabled")` -/
  | alertingDisabled
  /-- Call site `logger.warning("Email alerting requires SMTP configuration")` -/
  | smtpConfigWarning
  /-- Call site `logger.info(f"Alert generated: {alert_type}")` -/
  | alertGenerated (alert_type : String)
  /-- Call site `logger.critical(f"Critical service {service} is stopped")` -/
  | criticalServiceStopped (service : String)
  /-- Call site `logger.info("Starting monitoring cycle...")` -/
  | cycleStart
  /-- Call site `logger.info("Monitoring cycle completed")` -/
  | cycleDone
  deriving DecidableEq, Repr

/-- The `monitoring:` section of the YAML configuration. -/
structure MonitoringConfig where
  interval_minutes : Int
  critical_services : List String
  cpu_threshold : ℚ
  memory_threshold : ℚ
  deriving DecidableEq, Repr

/-- The `alerting:` section of the YAML configuration. -/
structure AlertingConfig where
  enabled : Bool
  smtp_server : String
  smtp_port : Nat
  email_from : String
  email_to : String
  email_subject : String
  deriving DecidableEq, Repr

/-- The `export:` section of the YAML configuration. -/
structure ExportConfig where
  json_path : String
  yaml_path : String
  auto_export : Bool
  deriving DecidableEq, Repr

/-- The whole configuration dictionary used by `SystemMonitor`. -/
structure Config where
  monitoring : MonitoringConfig
  alerting : AlertingConfig
  «export» : ExportConfig
  database_path : String
  deriving DecidableEq, Repr

/-- The `default_config` dict of `SystemMonitor._load_config`. -/
def default_config : Config :=
  { monitoring :=
      { interval_minutes := 5
        critical_services := ["WinRM", "Dhcp", "Dnscache", "EventLog"]
        cpu_threshold := 90
        memory_threshold := 85 }
    alerting :=
      { enabled := false
        smtp_server := "smtp.gmail.com"
        smtp_port := 587
        email_from := "your_email@gmail.com"
        email_to := "admin@example.com"
        email_subject := "System Alert" }
    «export» :=
      { json_path := "system_info.json"
        yaml_path := "system_info.yaml"
        auto_export := true }
    database_path := "system_metrics.db" }

/-- The parsed YAML the user supplies: `dict.update` in `_load_config`
replaces whole top-level sections, so each section is `Option`al. -/
structure UserConfig where
  monitoring : Option MonitoringConfig := none
  alerting : Option AlertingConfig := none
  «export» : Option ExportConfig := none
  database_path : Option String := none
  deriving DecidableEq, Repr

/-- Embeds `SystemMonitor._load_config`.  `user` is the parsed YAML file
(`none` when `open` raised `FileNotFoundError`).  `default_config.update(user_config)`
replaces each top-level key present in the user file; no value is validated. -/
def load_config (config_file : String) (user : Option UserConfig) :
    Config × List LogEvent :=
  match user with
  | none => (default_config, [.configNotFound config_file])
  | some u =>
      ({ monitoring := u.monitoring.getD default_config.monitoring
         alerting := u.alerting.getD default_config.alerting
         «export» := u.«export».getD default_config.«export»
         database_path := u.database_path.getD default_config.database_path },
       [.configLoaded config_file])

/-- One mounted volume of the snapshot, as built by the disk loop of
`get_windows_system_info` (`total_gb` etc. already divided by `1024**3`
and rounded by the probe). -/
structure DiskPartition where
  device : String
  mountpoint : String
  fstype : String
  total_gb : ℚ
  used_gb : ℚ
  free_gb : ℚ
  percent_used : ℚ
  deriving DecidableEq, Repr

/-- What `psutil.disk_usage(partition.mountpoint)` would report for one
partition of `psutil.disk_partitions()`; `usage = none` when the call raised,
in which case the source logs a warning and `continue`s. -/
structure PartitionProbe where
  device : String
  mountpoint : String
  fstype : String
  usage : Option DiskPartition
  deriving DecidableEq, Repr

/-- Result of `wmi.WMI().Win32_Service(Name=service)[0]`. -/
structure WmiService where
  state : String
  start_mode : String
  started : Bool
  deriving DecidableEq, Repr

/-- One value of the `services` dict: either the three WMI fields, or the
`{"status": "Not Found", "error": ...}` dict built in the `except` branch. -/
structure ServiceInfo where
  status : String
  start_mode : Option String := none
  started : Option Bool := none
  error : Option String := none
  deriving DecidableEq, Repr

/-- The `hardware` sub-dict of the `info` dict. -/
structure Hardware where
  cpu_count : Nat
  cpu_percent : ℚ
  memory_total_gb : ℚ
  memory_available_gb : ℚ
  memory_percent : ℚ
  disk_partitions : List DiskPartition
  deriving DecidableEq, Repr

/-- The parts of the `info` dict that the engine logic reads
(the static `system`/`network` sections are inert pass-through data). -/
structure Info where
  timestamp : Nat
  hardware : Hardware
  services : List (String × ServiceInfo)
  deriving DecidableEq, Repr

/-- One row of the `system_metrics` table (`_init_database`).  The
`service_status TEXT` column holds `json.dumps` of the services dict; it is
modelled by the serialised value itself. -/
structure MetricRow where
  id : Nat
  timestamp : Nat
  cpu_percent : ℚ
  memory_percent : ℚ
  memory_available_gb : ℚ
  disk_usage_percent : ℚ
  service_status : List (String × ServiceInfo)
  deriving DecidableEq, Repr

/-- One row of the `alerts` table (`_init_database`):
`(id AUTOINCREMENT, timestamp, alert_type, message, resolved DEFAULT 0)`. -/
structure AlertRow where
  id : Nat
  timestamp : Nat
  alert_type : String
  message : String
  resolved : Bool
  deriving DecidableEq, Repr

/-- The SQLite file at `database_path`, with the two tables of
`_init_database` and their `AUTOINCREMENT` counters made explicit. -/
structure DB where
  system_metrics : List MetricRow
  alerts : List AlertRow
  next_metric_id : Nat
  next_alert_id : Nat
  deriving DecidableEq, Repr

/-- The freshly initialised database produced by `_init_database`
(both tables exist and are empty). -/
def DB.init : DB :=
  { system_metrics := [], alerts := [], next_metric_id := 1, next_alert_id := 1 }

/-- Everything the external probes would report during one call of
`get_windows_system_info`: `psutil` gauges, `psutil.disk_partitions()`
with per-partition `disk_usage` outcomes, and the WMI outcome per service
name (`.error e` when the `try` body raised, e.g. service absent). -/
structure CollectorInput where
  now : Nat
  cpu_count : Nat
  cpu_percent : ℚ
  memory_total_gb : ℚ
  memory_available_gb : ℚ
  memory_percent : ℚ
  partitions : List PartitionProbe
  wmi : String → Except String WmiService

/-- Embeds `SystemMonitor.check_windows_services`: for each configured name,
on WMI success record `{status, start_mode, started}`, on any exception
record `{"status": "Not Found", "error": str(e)}` and log the error. -/
def check_windows_services (wmi : String → Except String WmiService) :
    List String → List (String × ServiceInfo) × List LogEvent
  | [] => ([], [])
  | service :: rest =>
      let r := check_windows_services wmi rest
      match wmi service with
      | .ok svc =>
          ((service, { status := svc.state, start_mode := some svc.start_mode,
                       started := some svc.started, error := none }) :: r.1,
           r.2)
      | .error e =>
          ((service, { status := "Not Found", error := some e }) :: r.1,
           .serviceCheckError service e :: r.2)

/-- Embeds `SystemMonitor._check_thresholds`: logs a warning per gauge that
is strictly above its configured threshold. -/
def check_thresholds (cfg : Config) (info : Info) : List LogEvent :=
  (if cfg.monitoring.cpu_threshold < info.hardware.cpu_percent then
     [.highCpu info.hardware.cpu_percent cfg.monitoring.cpu_threshold]
   else []) ++
  (if cfg.monitoring.memory_threshold < info.hardware.memory_percent then
     [.highMemory info.hardware.memory_percent cfg.monitoring.memory_threshold]
   else [])

/-- The disk loop of `get_windows_system_info`: partitions whose
`disk_usage` probe raised are logged as warnings and skipped. -/
def read_disk_partitions :
    List PartitionProbe → List DiskPartition × List LogEvent
  | [] => ([], [])
  | p :: rest =>
      let r := read_disk_partitions rest
      match p.usage with
      | some u => (u :: r.1, r.2)
      | none => (r.1, .partitionReadFailed p.mountpoint :: r.2)

/-- Embeds `SystemMonitor.get_windows_system_info`: builds the `info` dict
from the probes, checks the configured services, runs `_check_thresholds`,
and returns the dict together with the log trail. -/
def get_windows_system_info (cfg : Config) (inp : CollectorInput) :
    Info × List LogEvent :=
  let parts := (read_disk_partitions inp.partitions).1
  let disk_logs := (read_disk_partitions inp.partitions).2
  let svcs :=
    (check_windows_services inp.wmi cfg.monitoring.critical_services).1
  let svc_logs :=
    (check_windows_services inp.wmi cfg.monitoring.critical_services).2
  let info : Info :=
    { timestamp := inp.now
      hardware :=
        { cpu_count := inp.cpu_count
          cpu_percent := inp.cpu_percent
          memory_total_gb := inp.memory_total_gb
          memory_available_gb := inp.memory_available_gb
          memory_percent := inp.memory_percent
          disk_partitions := parts }
      services := svcs }
  (info,
   .collectingInfo :: (disk_logs ++ svc_logs ++ check_thresholds cfg info
     ++ [.infoCollected]))

/-- Embeds `SystemMonitor.store_metrics`.  `storage_ok = false` stands for
the backing medium being unavailable (sqlite raising); the source catches
every exception, logs `"Failed to store metrics"` at error level and
returns normally.  On success the `disk_usage_percent` of the row is the mean of
the `percent_used` of the partitions, and `0` when there are none. -/
def store_metrics (storage_ok : Bool) (err : String) (db : DB) (info : Info) :
    DB × List LogEvent :=
  if storage_ok then
    let disk_usages := info.hardware.disk_partitions.map (·.percent_used)
    let avg_disk_usage : ℚ :=
      if disk_usages.length = 0 then 0
      else disk_usages.sum / (disk_usages.length : ℚ)
    let row : MetricRow :=
      { id := db.next_metric_id
        timestamp := info.timestamp
        cpu_percent := info.hardware.cpu_percent
        memory_percent := info.hardware.memory_percent
        memory_available_gb := info.hardware.memory_available_gb
        disk_usage_percent := avg_disk_usage
        service_status := info.services }
    ({ db with system_metrics := db.system_metrics ++ [row]
               next_metric_id := db.next_metric_id + 1 },
     [.metricsStored])
  else (db, [.storeFailed err])

/-- Embeds `SystemMonitor.send_alert`.  When alerting is disabled it logs at
debug level and returns `false`.  Otherwise it INSERTs a fresh row into
`alerts` (AUTOINCREMENT id, `resolved` left at its DEFAULT 0), assembles the
never-sent email (the SMTP call is commented out in the source), logs the
SMTP warning and `"Alert generated"`, and returns `true`. -/
def send_alert (cfg : Config) (now : Nat) (db : DB)
    (alert_type message : String) : DB × List LogEvent × Bool :=
  if cfg.alerting.enabled then
    let row : AlertRow :=
      { id := db.next_alert_id, timestamp := now, alert_type := alert_type,
        message := message, resolved := false }
    ({ db with alerts := db.alerts ++ [row]
               next_alert_id := db.next_alert_id + 1 },
     [.smtpConfigWarning, .alertGenerated alert_type], true)
  else (db, [.alertingDisabled], false)

/-- The loop body of `SystemMonitor.monitor_services` over the `services`
dict: any service whose `status` equals `"Stopped"` is logged at critical
level and passed to `send_alert`; every other status is skipped. -/
def monitor_services_loop (cfg : Config) (now : Nat) (db : DB) :
    List (String × ServiceInfo) → DB × List LogEvent
  | [] => (db, [])
  | (service, status_info) :: rest =>
      if status_info.status = "Stopped" then
        let message := "Critical service " ++ service ++ " is stopped"
        let r := send_alert cfg now db "Service Stopped" message
        let t := monitor_services_loop cfg now r.1 rest
        (t.1, .criticalServiceStopped service :: (r.2.1 ++ t.2))
      else monitor_services_loop cfg now db rest

/-- Embeds `SystemMonitor.monitor_services`: it collects a fresh `info`
dict via `get_windows_system_info` and alerts on each stopped service. -/
def monitor_services (cfg : Config) (inp : CollectorInput) (db : DB) :
    DB × List LogEvent :=
  let info := (get_windows_system_info cfg inp).1
  let clogs := (get_windows_system_info cfg inp).2
  let r := monitor_services_loop cfg inp.now db info.services
  (r.1, clogs ++ r.2)

/-- Embeds `SystemMonitor.export_to_file` (the file write itself is assumed
to succeed; the claims under study do not exercise its exception branch). -/
def export_to_file (cfg : Config) (format_type : String) :
    Bool × List LogEvent :=
  if format_type = "json" then (true, [.exportedTo cfg.«export».json_path])
  else if format_type = "yaml" then (true, [.exportedTo cfg.«export».yaml_path])
  else (false, [.exportUnsupported format_type])

/-- Embeds `SystemMonitor.run_monitoring_cycle`: collect, store, optionally
auto-export, then `monitor_services` (which, as in the source, collects a
second `info` dict from the same probes). -/
def run_monitoring_cycle (cfg : Config) (storage_ok : Bool) (err : String)
    (inp : CollectorInput) (db : DB) : Info × DB × List LogEvent :=
  let info := (get_windows_system_info cfg inp).1
  let clogs := (get_windows_system_info cfg inp).2
  let db1 := (store_metrics storage_ok err db info).1
  let slogs := (store_metrics storage_ok err db info).2
  let elogs :=
    if cfg.«export».auto_export then
      (export_to_file cfg "json").2 ++ (export_to_file cfg "yaml").2
    else []
  let db2 := (monitor_services cfg inp db1).1
  let mlogs := (monitor_services cfg inp db1).2
  (info, db2, .cycleStart :: (clogs ++ slogs ++ elogs ++ mlogs ++ [.cycleDone]))

/-- Embeds `strftime` with format year-month-day-hour: truncation of an instant to its
hour.  Two instants get the same key exactly when they lie in the same hour. -/
def hourOf (t : Nat) : Nat := t / 3600

/-- One entry of the `metrics_timeline` of the report. -/
structure HourlyBucket where
  hour : Nat
  avg_cpu : ℚ
  max_cpu : ℚ
  avg_memory : ℚ
  max_memory : ℚ
  samples : Nat
  deriving DecidableEq, Repr

/-- SQL `MAX` over one (always nonempty) group; the `0` branch is dead code
because `GROUP BY` only forms groups that contain at least one row. -/
def sql_max : List ℚ → ℚ
  | [] => 0
  | x :: xs => xs.foldl max x

/-- The grouped metrics query of `SystemMonitor.generate_report`:
`SELECT timestamp, AVG(cpu), MAX(cpu), AVG(mem), MAX(mem), COUNT(*) FROM
system_metrics WHERE timestamp > cutoff GROUP BY strftime(hour, timestamp)`.
One bucket per hour key that occurs among the selected rows; the bare first
column is labelled `"hour"` in the report and is represented here by the
hour key of the group. -/
def metrics_timeline (rows : List MetricRow) (cutoff : Nat) :
    List HourlyBucket :=
  let recent := rows.filter (fun r => cutoff < r.timestamp)
  let hours := (recent.map (fun r => hourOf r.timestamp)).dedup
  hours.map (fun h =>
    let grp := recent.filter (fun r => hourOf r.timestamp = h)
    { hour := h
      avg_cpu := (grp.map (·.cpu_percent)).sum / (grp.length : ℚ)
      max_cpu := sql_max (grp.map (·.cpu_percent))
      avg_memory := (grp.map (·.memory_percent)).sum / (grp.length : ℚ)
      max_memory := sql_max (grp.map (·.memory_percent))
      samples := grp.length })

/-- The alert query of `generate_report`: `SELECT alert_type, COUNT(*) FROM
alerts WHERE timestamp > cutoff AND resolved = 0 GROUP BY alert_type`. -/
def alert_counts (alerts : List AlertRow) (cutoff : Nat) :
    List (String × Nat) :=
  let recent :=
    alerts.filter (fun a => cutoff < a.timestamp ∧ a.resolved = false)
  let types := (recent.map (·.alert_type)).dedup
  types.map (fun t => (t, (recent.filter (·.alert_type = t)).length))

/-- The report dict returned by `SystemMonitor.generate_report`. -/
structure Report where
  period_hours : Nat
  metrics_timeline : List HourlyBucket
  active_alerts : List (String × Nat)
  generated_at : Nat
  deriving DecidableEq, Repr

/-- Embeds `SystemMonitor.generate_report` with
`cutoff_time = now - timedelta(hours=hours)` (Nat subtraction; the claims
never exercise an underflowing window). -/
def generate_report (now hours : Nat) (db : DB) : Report :=
  let cutoff := now - hours * 3600
  { period_hours := hours
    metrics_timeline := metrics_timeline db.system_metrics cutoff
    active_alerts := alert_counts db.alerts cutoff
    generated_at := now }

/-! ### `notifications.py` -/

/-- A Python exception escaping `NotificationManager._setup_notifiers`. -/
inductive PyErr where
  | nameError (name : String)
  deriving DecidableEq, Repr

/-- An entry of `NotificationManager.notifiers`. -/
inductive Notifier where
  | slack (token channel : String)
  | teams (webhook_url : String)
  deriving DecidableEq, Repr

/-- The slack sub-dict of the notification configuration; absent keys
are `none` (`dict.get` returns `None`). -/
structure SlackConfig where
  enabled : Bool := false
  token : Option String := none
  channel : Option String := none
  deriving DecidableEq, Repr

/-- The teams sub-dict of the notification configuration. -/
structure TeamsConfig where
  enabled : Bool := false
  webhook : Option String := none
  deriving DecidableEq, Repr

/-- The configuration dict handed to `NotificationManager`. -/
structure NotificationConfig where
  slack : Option SlackConfig := none
  teams : Option TeamsConfig := none
  deriving DecidableEq, Repr

/-- Python truthiness of an optional string: `None` and `""` are falsy. -/
def truthy : Option String → Bool
  | none => false
  | some s => s ≠ ""

/-- Embeds `NotificationManager._setup_notifiers`.  The Slack section runs
to completion; the Teams section begins with
`teams_config = self_config.get(teams, ...)` where `self_config` is bound
nowhere in the module or the method, so Python raises
a `NameError` naming `self_config` before its `if` is reached,
for every configuration. -/
def setup_notifiers (config : NotificationConfig) :
    Except PyErr (List Notifier) :=
  let slack_config := config.slack.getD {}
  let _notifiers : List Notifier :=
    if slack_config.enabled then
      if truthy slack_config.token ∧ truthy slack_config.channel then
        [.slack (slack_config.token.getD "") (slack_config.channel.getD "")]
      else []
    else []
  Except.error (PyErr.nameError "self_config")

/-- A constructed `NotificationManager` (never actually obtainable, see
`setup_notifiers`). -/
structure NotificationManager where
  config : NotificationConfig
  notifiers : List Notifier
  deriving DecidableEq, Repr

/-- Embeds `NotificationManager.__init__`: stores the config, initialises
`notifiers = []`, then calls `_setup_notifiers`; any exception raised there
propagates out of the constructor. -/
def NotificationManager.create (config : NotificationConfig) :
    Except PyErr NotificationManager :=
  match setup_notifiers config with
  | .ok ns => .ok { config := config, notifiers := ns }
  | .error e => .error e

end SysMon


namespace SysMon

/-! ### Observables and specification helpers -/

/-- Whether a log event is the `"Alert generated"` line of `send_alert`:
the outward-notification event of the dispatcher (one per successful
`send_alert` call). -/
def isAlertGenerated : LogEvent → Bool
  | .alertGenerated _ => true
  | _ => false

/-- Number of outward notifications in a log trail. -/
def alertGeneratedCount (logs : List LogEvent) : Nat :=
  logs.countP isAlertGenerated

/-- The services of a snapshot whose reported status is exactly `"Stopped"`
(the only status `monitor_services` reacts to). -/
def stopped_services (svcs : List (String × ServiceInfo)) :
    List (String × ServiceInfo) :=
  svcs.filter (fun p => p.2.status = "Stopped")

/-- The alert rows that one pass of the `monitor_services` loop INSERTs,
starting from AUTOINCREMENT value `nid`: one fresh row per stopped
service, `resolved` left at its DEFAULT `false`. -/
def alert_rows (now : Nat) : Nat → List (String × ServiceInfo) → List AlertRow
  | _, [] => []
  | nid, (service, status_info) :: rest =>
      if status_info.status = "Stopped" then
        { id := nid, timestamp := now, alert_type := "Service Stopped",
          message := "Critical service " ++ service ++ " is stopped",
          resolved := false } :: alert_rows now (nid + 1) rest
      else alert_rows now nid rest

/-- The log trail of one enabled pass of the `monitor_services` loop. -/
def loop_logs : List (String × ServiceInfo) → List LogEvent
  | [] => []
  | (service, status_info) :: rest =>
      if status_info.status = "Stopped" then
        .criticalServiceStopped service :: .smtpConfigWarning ::
          .alertGenerated "Service Stopped" :: loop_logs rest
      else loop_logs rest

/-! ### Concrete fixtures used by the counterexamples and witnesses -/

/-- A configuration with alerting enabled and a single critical service. -/
def exCfg : Config :=
  { monitoring :=
      { interval_minutes := 5, critical_services := ["WinRM"],
        cpu_threshold := 90, memory_threshold := 85 }
    alerting := { default_config.alerting with enabled := true }
    «export» := default_config.«export»
    database_path := "system_metrics.db" }

/-- One healthy disk partition. -/
def exPart : DiskPartition :=
  { device := "C:", mountpoint := "C:\\", fstype := "NTFS",
    total_gb := 100, used_gb := 40, free_gb := 60, percent_used := 40 }

/-- Probes for a cycle in which the critical service is stopped. -/
def exInputStopped : CollectorInput :=
  { now := 7200, cpu_count := 4, cpu_percent := 10, memory_total_gb := 16,
    memory_available_gb := 8, memory_percent := 50,
    partitions := [{ device := "C:", mountpoint := "C:\\", fstype := "NTFS",
                     usage := some exPart }],
    wmi := fun _ =>
      .ok { state := "Stopped", start_mode := "Auto", started := false } }

/-- Probes for a cycle in which every service is running. -/
def exInputHealthy : CollectorInput :=
  { exInputStopped with
    now := 7500,
    wmi := fun _ =>
      .ok { state := "Running", start_mode := "Auto", started := true } }

/-- Probes for a cycle in which the WMI query for the critical service
raises (service absent), so `check_windows_services` reports `"Not Found"`. -/
def exInputNotFound : CollectorInput :=
  { exInputStopped with
    wmi := fun _ => .error "no such service" }

/-- Probes for a cycle in which the `disk_usage` probe of the only disk
partition raises. -/
def exInputDiskFail : CollectorInput :=
  { exInputStopped with
    wmi := fun _ =>
      .ok { state := "Running", start_mode := "Auto", started := true },
    partitions := [{ device := "C:", mountpoint := "C:\\", fstype := "NTFS",
                     usage := none }] }

/-- A monitoring section that the spec calls invalid: negative interval and
a CPU threshold above 100. -/
def exBadMonitoring : MonitoringConfig :=
  { interval_minutes := -5, critical_services := ["WinRM"],
    cpu_threshold := 150, memory_threshold := 85 }

/-- Metric rows with samples only in hours 1 and 3 of the epoch day
(the 24-hour-window scenario of the spec). -/
def exRows : List MetricRow :=
  [ { id := 1, timestamp := 3700, cpu_percent := 10, memory_percent := 20,
      memory_available_gb := 8, disk_usage_percent := 30, service_status := [] },
    { id := 2, timestamp := 3900, cpu_percent := 30, memory_percent := 40,
      memory_available_gb := 8, disk_usage_percent := 30, service_status := [] },
    { id := 3, timestamp := 11000, cpu_percent := 50, memory_percent := 60,
      memory_available_gb := 8, disk_usage_percent := 30, service_status := [] } ]

/-- A snapshot whose gauges sit exactly on the default thresholds
(cpu 90 = cpu_threshold, memory 85 = memory_threshold). -/
def exInfoBoundary : Info :=
  { timestamp := 0
    hardware :=
      { cpu_count := 4, cpu_percent := 90, memory_total_gb := 16,
        memory_available_gb := 8, memory_percent := 85,
        disk_partitions := [] }
    services := [] }

/-- The database state after cycle N of the fixtures: one stored snapshot
and one unresolved `"Service Stopped"` alert for `WinRM`. -/
def exDbAfterN : DB :=
  (run_monitoring_cycle exCfg true "" exInputStopped DB.init).2.1

end SysMon

namespace SysMon

/-! ### Structural lemmas about the engine -/

lemma alertGeneratedCount_append (xs ys : List LogEvent) :
    alertGeneratedCount (xs ++ ys) =
      alertGeneratedCount xs + alertGeneratedCount ys := by
  simp [alertGeneratedCount, List.countP_append]

lemma alertGeneratedCount_cons (x : LogEvent) (xs : List LogEvent) :
    alertGeneratedCount (x :: xs) =
      (if isAlertGenerated x then 1 else 0) + alertGeneratedCount xs := by
  simp [alertGeneratedCount, List.countP_cons, Nat.add_comm]

lemma send_alert_enabled (cfg : Config) (now : Nat) (db : DB)
    (t m : String) (h : cfg.alerting.enabled = true) :
    send_alert cfg now db t m =
      ({ db with
          alerts := db.alerts ++
            [{ id := db.next_alert_id, timestamp := now, alert_type := t,
               message := m, resolved := false }]
          next_alert_id := db.next_alert_id + 1 },
       [.smtpConfigWarning, .alertGenerated t], true) := by
  simp [send_alert, h]

lemma send_alert_metrics (cfg : Config) (now : Nat) (db : DB) (t m : String) :
    (send_alert cfg now db t m).1.system_metrics = db.system_metrics := by
  by_cases h : cfg.alerting.enabled <;> simp [send_alert, h]

lemma monitor_services_loop_spec (cfg : Config) (now : Nat)
    (h : cfg.alerting.enabled = true)
    (svcs : List (String × ServiceInfo)) :
    ∀ db : DB,
      monitor_services_loop cfg now db svcs =
        ({ db with
            alerts := db.alerts ++ alert_rows now db.next_alert_id svcs
            next_alert_id :=
              db.next_alert_id + (stopped_services svcs).length },
         loop_logs svcs) := by
  induction svcs with
  | nil =>
      intro db
      simp [monitor_services_loop, alert_rows, stopped_services, loop_logs]
  | cons p rest ih =>
      obtain ⟨service, si⟩ := p
      intro db
      by_cases hs : si.status = "Stopped"
      · simp only [monitor_services_loop, hs, if_true,
          send_alert_enabled cfg now db _ _ h, ih]
        simp [alert_rows, hs, stopped_services, loop_logs,
          List.filter_cons, List.append_assoc, Nat.add_comm,
          Nat.add_left_comm, Nat.add_assoc]
      · simp only [monitor_services_loop, hs, if_false, ih]
        simp [alert_rows, hs, stopped_services, loop_logs, List.filter_cons]

end SysMon

namespace SysMon

lemma monitor_services_loop_disabled (cfg : Config) (now : Nat)
    (h : cfg.alerting.enabled = false)
    (svcs : List (String × ServiceInfo)) :
    ∀ db : DB, (monitor_services_loop cfg now db svcs).1 = db := by
  induction svcs with
  | nil => intro db; simp [monitor_services_loop]
  | cons p rest ih =>
      obtain ⟨service, si⟩ := p
      intro db
      by_cases hs : si.status = "Stopped"
      · simp only [monitor_services_loop, hs, if_true]
        simp [send_alert, h, ih]
      · simp only [monitor_services_loop, hs, if_false, ih]

lemma monitor_services_loop_metrics (cfg : Config) (now : Nat)
    (svcs : List (String × ServiceInfo)) :
    ∀ db : DB,
      (monitor_services_loop cfg now db svcs).1.system_metrics =
        db.system_metrics := by
  induction svcs with
  | nil => intro db; simp [monitor_services_loop]
  | cons p rest ih =>
      obtain ⟨service, si⟩ := p
      intro db
      by_cases hs : si.status = "Stopped"
      · simp only [monitor_services_loop, hs, if_true, ih, send_alert_metrics]
      · simp only [monitor_services_loop, hs, if_false, ih]

lemma alert_rows_resolved (now : Nat) (svcs : List (String × ServiceInfo)) :
    ∀ (nid : Nat), ∀ r ∈ alert_rows now nid svcs, r.resolved = false := by
  induction svcs with
  | nil => intro nid r hr; simp [alert_rows] at hr
  | cons p rest ih =>
      obtain ⟨service, si⟩ := p
      intro nid r hr
      by_cases hs : si.status = "Stopped"
      · rw [alert_rows, if_pos hs] at hr
        rcases List.mem_cons.mp hr with h1 | h1
        · simp [h1]
        · exact ih (nid + 1) r h1
      · rw [alert_rows, if_neg hs] at hr
        exact ih nid r hr

lemma monitor_services_loop_alerts_extend (cfg : Config) (now : Nat)
    (svcs : List (String × ServiceInfo)) (db : DB) :
    ∃ new : List AlertRow,
      (monitor_services_loop cfg now db svcs).1.alerts = db.alerts ++ new ∧
        ∀ r ∈ new, r.resolved = false := by
  cases hb : cfg.alerting.enabled with
  | true =>
      refine ⟨alert_rows now db.next_alert_id svcs, ?_, ?_⟩
      · rw [monitor_services_loop_spec cfg now hb svcs db]
      · exact alert_rows_resolved now svcs db.next_alert_id
  | false =>
      refine ⟨[], ?_, by simp⟩
      rw [monitor_services_loop_disabled cfg now hb svcs db, List.append_nil]


lemma alertGeneratedCount_loop_logs (svcs : List (String × ServiceInfo)) :
    alertGeneratedCount (loop_logs svcs) = (stopped_services svcs).length := by
  induction svcs with
  | nil => simp [loop_logs, stopped_services, alertGeneratedCount]
  | cons p rest ih =>
      obtain ⟨service, si⟩ := p
      by_cases hs : si.status = "Stopped"
      · simp [loop_logs, hs, stopped_services, List.filter_cons,
          alertGeneratedCount_cons, isAlertGenerated, ih, Nat.add_comm]
      · simp [loop_logs, hs, stopped_services, List.filter_cons,
          alertGeneratedCount_cons, isAlertGenerated, ih]

lemma alertGeneratedCount_read_disk (ps : List PartitionProbe) :
    alertGeneratedCount (read_disk_partitions ps).2 = 0 := by
  induction ps with
  | nil => simp [read_disk_partitions, alertGeneratedCount]
  | cons p rest ih =>
      cases hu : p.usage with
      | some u => simp [read_disk_partitions, hu, ih]
      | none =>
          simp [read_disk_partitions, hu, alertGeneratedCount_cons,
            isAlertGenerated, ih]

lemma alertGeneratedCount_check_services
    (wmi : String → Except String WmiService) (names : List String) :
    alertGeneratedCount (check_windows_services wmi names).2 = 0 := by
  induction names with
  | nil => simp [check_windows_services, alertGeneratedCount]
  | cons s rest ih =>
      cases hw : wmi s with
      | ok svc => simp [check_windows_services, hw, ih]
      | error e =>
          simp [check_windows_services, hw, alertGeneratedCount_cons,
            isAlertGenerated, ih]

lemma alertGeneratedCount_thresholds (cfg : Config) (info : Info) :
    alertGeneratedCount (check_thresholds cfg info) = 0 := by
  unfold check_thresholds
  split_ifs <;>
    simp [alertGeneratedCount_append, alertGeneratedCount_cons,
      alertGeneratedCount, isAlertGenerated]

lemma alertGeneratedCount_collect (cfg : Config) (inp : CollectorInput) :
    alertGeneratedCount (get_windows_system_info cfg inp).2 = 0 := by
  simp only [get_windows_system_info]
  rw [alertGeneratedCount_cons, alertGeneratedCount_append,
    alertGeneratedCount_append, alertGeneratedCount_append,
    alertGeneratedCount_read_disk, alertGeneratedCount_check_services,
    alertGeneratedCount_thresholds]
  decide

lemma alertGeneratedCount_store (ok : Bool) (err : String) (db : DB)
    (info : Info) :
    alertGeneratedCount (store_metrics ok err db info).2 = 0 := by
  cases ok <;>
    simp [store_metrics, alertGeneratedCount_cons, alertGeneratedCount,
      isAlertGenerated]

lemma store_metrics_alerts (ok : Bool) (err : String) (db : DB)
    (info : Info) :
    (store_metrics ok err db info).1.alerts = db.alerts ∧
      (store_metrics ok err db info).1.next_alert_id = db.next_alert_id := by
  cases ok <;> simp [store_metrics]

lemma alertGeneratedCount_export (cfg : Config) (fmt : String) :
    alertGeneratedCount (export_to_file cfg fmt).2 = 0 := by
  unfold export_to_file
  split_ifs <;>
    simp [alertGeneratedCount_cons, alertGeneratedCount, isAlertGenerated]

end SysMon

namespace SysMon

lemma alert_rows_length (now : Nat) (svcs : List (String × ServiceInfo)) :
    ∀ nid : Nat,
      (alert_rows now nid svcs).length = (stopped_services svcs).length := by
  induction svcs with
  | nil => intro nid; simp [alert_rows, stopped_services]
  | cons p rest ih =>
      obtain ⟨service, si⟩ := p
      intro nid
      by_cases hs : si.status = "Stopped"
      · rw [alert_rows, if_pos hs]
        simp [stopped_services, List.filter_cons, hs, ih]
      · rw [alert_rows, if_neg hs]
        simp [stopped_services, List.filter_cons, hs, ih nid]

lemma alert_rows_type (now : Nat) (svcs : List (String × ServiceInfo)) :
    ∀ nid : Nat, ∀ r ∈ alert_rows now nid svcs,
      r.alert_type = "Service Stopped" := by
  induction svcs with
  | nil => intro nid r hr; simp [alert_rows] at hr
  | cons p rest ih =>
      obtain ⟨service, si⟩ := p
      intro nid r hr
      by_cases hs : si.status = "Stopped"
      · rw [alert_rows, if_pos hs] at hr
        rcases List.mem_cons.mp hr with h1 | h1
        · simp [h1]
        · exact ih (nid + 1) r h1
      · rw [alert_rows, if_neg hs] at hr
        exact ih nid r hr

lemma monitor_services_metrics (cfg : Config) (inp : CollectorInput)
    (db : DB) :
    (monitor_services cfg inp db).1.system_metrics = db.system_metrics := by
  simp only [monitor_services]
  exact monitor_services_loop_metrics cfg inp.now _ db

lemma monitor_services_alerts_extend (cfg : Config) (inp : CollectorInput)
    (db : DB) :
    ∃ new : List AlertRow,
      (monitor_services cfg inp db).1.alerts = db.alerts ++ new ∧
        ∀ r ∈ new, r.resolved = false := by
  simp only [monitor_services]
  exact monitor_services_loop_alerts_extend cfg inp.now _ db

lemma alertGeneratedCount_monitor (cfg : Config) (inp : CollectorInput)
    (db : DB) (h : cfg.alerting.enabled = true) :
    alertGeneratedCount (monitor_services cfg inp db).2 =
      (stopped_services (get_windows_system_info cfg inp).1.services).length := by
  simp only [monitor_services]
  rw [alertGeneratedCount_append, alertGeneratedCount_collect,
    monitor_services_loop_spec cfg inp.now h _ db]
  simp [alertGeneratedCount_loop_logs]

lemma alertGeneratedCount_elogs (cfg : Config) :
    alertGeneratedCount
      (if cfg.«export».auto_export then
        (export_to_file cfg "json").2 ++ (export_to_file cfg "yaml").2
      else []) = 0 := by
  split_ifs with h
  · rw [alertGeneratedCount_append, alertGeneratedCount_export,
      alertGeneratedCount_export]
  · rfl

lemma alertGeneratedCount_cycle (cfg : Config) (ok : Bool) (err : String)
    (inp : CollectorInput) (db : DB) (h : cfg.alerting.enabled = true) :
    alertGeneratedCount (run_monitoring_cycle cfg ok err inp db).2.2 =
      (stopped_services (get_windows_system_info cfg inp).1.services).length := by
  simp only [run_monitoring_cycle]
  rw [alertGeneratedCount_cons, alertGeneratedCount_append,
    alertGeneratedCount_append, alertGeneratedCount_append,
    alertGeneratedCount_append, alertGeneratedCount_collect,
    alertGeneratedCount_store, alertGeneratedCount_elogs,
    alertGeneratedCount_monitor cfg inp _ h]
  simp [alertGeneratedCount, isAlertGenerated]

lemma run_monitoring_cycle_alerts_extend (cfg : Config) (ok : Bool)
    (err : String) (inp : CollectorInput) (db : DB) :
    ∃ new : List AlertRow,
      (run_monitoring_cycle cfg ok err inp db).2.1.alerts =
          db.alerts ++ new ∧
        ∀ r ∈ new, r.resolved = false := by
  simp only [run_monitoring_cycle]
  obtain ⟨new, hnew, hres⟩ :=
    monitor_services_alerts_extend cfg inp
      (store_metrics ok err db (get_windows_system_info cfg inp).1).1
  refine ⟨new, ?_, hres⟩
  rw [hnew,
    (store_metrics_alerts ok err db (get_windows_system_info cfg inp).1).1]

end SysMon

namespace SysMon

/-- C4: for every snapshot and configuration, a gauge exactly equal to its
configured threshold raises no violation: the `HighCPU` warning (and
likewise `HighMemory`) is emitted by `_check_thresholds` if and only if the
measured percentage is strictly greater than the configured threshold. -/
theorem C4_threshold_strictness (cfg : Config) (info : Info) :
    (LogEvent.highCpu info.hardware.cpu_percent cfg.monitoring.cpu_threshold
        ∈ check_thresholds cfg info ↔
      cfg.monitoring.cpu_threshold < info.hardware.cpu_percent) ∧
    (LogEvent.highMemory info.hardware.memory_percent
        cfg.monitoring.memory_threshold ∈ check_thresholds cfg info ↔
      cfg.monitoring.memory_threshold < info.hardware.memory_percent) ∧
    (info.hardware.cpu_percent = cfg.monitoring.cpu_threshold →
      LogEvent.highCpu info.hardware.cpu_percent cfg.monitoring.cpu_threshold
        ∉ check_thresholds cfg info) ∧
    (info.hardware.memory_percent = cfg.monitoring.memory_threshold →
      LogEvent.highMemory info.hardware.memory_percent
        cfg.monitoring.memory_threshold ∉ check_thresholds cfg info) := by
  refine ⟨?_, ?_, ?_, ?_⟩
  · simp only [check_thresholds, List.mem_append]
    split_ifs with h1 h2 <;> simp_all
  · simp only [check_thresholds, List.mem_append]
    split_ifs with h1 h2 <;> simp_all
  · intro he
    simp only [check_thresholds, List.mem_append]
    split_ifs with h1 h2 <;> simp_all
  · intro he
    simp only [check_thresholds, List.mem_append]
    split_ifs with h1 h2 <;> simp_all

/-- Witness for C4 at the boundary snapshot: both gauges equal to their
default thresholds emit neither warning. -/
theorem C4_threshold_strictness_witness :
    LogEvent.highCpu exInfoBoundary.hardware.cpu_percent
        default_config.monitoring.cpu_threshold
      ∉ check_thresholds default_config exInfoBoundary ∧
    LogEvent.highMemory exInfoBoundary.hardware.memory_percent
        default_config.monitoring.memory_threshold
      ∉ check_thresholds default_config exInfoBoundary :=
  ⟨(C4_threshold_strictness default_config exInfoBoundary).2.2.1 (by decide),
   (C4_threshold_strictness default_config exInfoBoundary).2.2.2 (by decide)⟩

/-- C10: for every configuration dictionary, constructing the
`NotificationManager` raises a `NameError` during channel setup (the Teams
branch reads the undefined name `self_config`), so no input ever yields a
usable manager and `send_to_all` is unreachable through the constructor. -/
theorem C10_notification_manager_name_error (config : NotificationConfig) :
    NotificationManager.create config =
      .error (.nameError "self_config") := rfl

end SysMon

namespace SysMon

/-- C1 counterexample: a `ServiceDown` condition present and unresolved in
two consecutive cycles is dispatched afresh in each cycle — two `"Alert
generated"` notifications and two inserted alert rows in total, not the one
the claim allows (nothing tracks or updates a `last_observed`). -/
theorem C1_counterexample :
    alertGeneratedCount
        ((run_monitoring_cycle exCfg true "" exInputStopped DB.init).2.2 ++
          (run_monitoring_cycle exCfg true "" exInputStopped
            (run_monitoring_cycle exCfg true "" exInputStopped
              DB.init).2.1).2.2) = 2 ∧
      ((run_monitoring_cycle exCfg true "" exInputStopped
        (run_monitoring_cycle exCfg true "" exInputStopped
          DB.init).2.1).2.1).alerts.length = 2 := by decide

/-- C1 amended: `monitor_services` re-dispatches every cycle; over two
consecutive cycles both exhibiting the same unresolved violations, exactly
two outward notifications fire per stopped service (one per cycle), rather
than one in total. -/
theorem C1_redispatch_each_cycle (cfg : Config) (err₁ err₂ : String)
    (inp : CollectorInput) (db : DB)
    (h : cfg.alerting.enabled = true) :
    alertGeneratedCount
        ((run_monitoring_cycle cfg true err₁ inp db).2.2 ++
          (run_monitoring_cycle cfg true err₂ inp
            (run_monitoring_cycle cfg true err₁ inp db).2.1).2.2) =
      2 * (stopped_services
          (get_windows_system_info cfg inp).1.services).length := by
  rw [alertGeneratedCount_append, alertGeneratedCount_cycle cfg true err₁ inp db h,
    alertGeneratedCount_cycle cfg true err₂ inp _ h]
  ring

/-- Witness for C1 amended: the stopped `WinRM` fixture dispatches twice
over two cycles. -/
theorem C1_redispatch_witness :
    alertGeneratedCount
        ((run_monitoring_cycle exCfg true "" exInputStopped DB.init).2.2 ++
          (run_monitoring_cycle exCfg true "" exInputStopped
            (run_monitoring_cycle exCfg true "" exInputStopped
              DB.init).2.1).2.2) =
      2 * (stopped_services
          (get_windows_system_info exCfg exInputStopped).1.services).length :=
  C1_redispatch_each_cycle exCfg "" "" exInputStopped DB.init (by decide)

end SysMon

namespace SysMon

/-- C2 counterexample: a configured service whose WMI probe fails is
recorded with status `"Not Found"` — a state outside `{Running}` — yet
`monitor_services` raises no alert for it at all: no row is inserted and no
notification fires, contradicting "one ServiceDown violation per configured
service whose state is not Running". -/
theorem C2_counterexample :
    (get_windows_system_info exCfg exInputNotFound).1.services =
        [("WinRM", { status := "Not Found", start_mode := none,
                     started := none, error := some "no such service" })] ∧
      (monitor_services exCfg exInputNotFound DB.init).1.alerts = [] ∧
      alertGeneratedCount
        (monitor_services exCfg exInputNotFound DB.init).2 = 0 := by decide

/-- C2 amended: `monitor_services` raises exactly one `"Service Stopped"`
alert per configured service whose reported status equals `"Stopped"`;
every other status — including `"Not Found"`, `"Error"`, `"Paused"` — is
ignored. -/
theorem C2_alerts_only_for_stopped (cfg : Config) (inp : CollectorInput)
    (db : DB) (h : cfg.alerting.enabled = true) :
    (monitor_services cfg inp db).1.alerts.length =
        db.alerts.length +
          (stopped_services
            (get_windows_system_info cfg inp).1.services).length ∧
      ∀ r ∈ (monitor_services cfg inp db).1.alerts,
        r ∈ db.alerts ∨ r.alert_type = "Service Stopped" := by
  constructor
  · simp only [monitor_services]
    rw [monitor_services_loop_spec cfg inp.now h _ db]
    simp [alert_rows_length]
  · simp only [monitor_services]
    rw [monitor_services_loop_spec cfg inp.now h _ db]
    intro r hr
    simp only [List.mem_append] at hr
    rcases hr with h1 | h1
    · exact Or.inl h1
    · exact Or.inr (alert_rows_type inp.now _ db.next_alert_id r h1)

/-- Witness for C2 amended: with the `"Not Found"` fixture there are zero
stopped services, so no rows are inserted. -/
theorem C2_alerts_only_for_stopped_witness :
    (monitor_services exCfg exInputNotFound DB.init).1.alerts.length =
      DB.init.alerts.length +
        (stopped_services
          (get_windows_system_info exCfg exInputNotFound).1.services).length :=
  (C2_alerts_only_for_stopped exCfg exInputNotFound DB.init (by decide)).1

/-- C3 counterexample: after cycle N raised an alert for the stopped
`WinRM`, cycle N+1 observes the service running again, yet the persisted
alert still has `resolved = false` and no "recovered" notification of any
kind is dispatched — the source has no code path that updates `resolved`. -/
theorem C3_counterexample :
    (run_monitoring_cycle exCfg true "" exInputHealthy
          exDbAfterN).2.1.alerts =
        [{ id := 1, timestamp := 7200, alert_type := "Service Stopped",
           message := "Critical service WinRM is stopped",
           resolved := false }] ∧
      alertGeneratedCount
        (run_monitoring_cycle exCfg true "" exInputHealthy
          exDbAfterN).2.2 = 0 := by decide

/-- C3 amended: a monitoring cycle only ever appends alert rows with
`resolved = false` and never modifies an existing row, so a previously
active alert stays unresolved forever; and a cycle whose snapshot has no
stopped services dispatches no notification at all (in particular no
"recovered" one). -/
theorem C3_resolution_never_happens (cfg : Config) (ok : Bool)
    (err : String) (inp : CollectorInput) (db : DB) :
    (∃ new : List AlertRow,
        (run_monitoring_cycle cfg ok err inp db).2.1.alerts =
            db.alerts ++ new ∧
          ∀ r ∈ new, r.resolved = false) ∧
      (cfg.alerting.enabled = true →
        stopped_services (get_windows_system_info cfg inp).1.services = [] →
        alertGeneratedCount
          (run_monitoring_cycle cfg ok err inp db).2.2 = 0) := by
  refine ⟨run_monitoring_cycle_alerts_extend cfg ok err inp db, ?_⟩
  intro h hstop
  rw [alertGeneratedCount_cycle cfg ok err inp db h, hstop]
  rfl

/-- Witness for C3 amended at the healthy cycle N+1 fixture. -/
theorem C3_resolution_never_happens_witness :
    (∃ new : List AlertRow,
        (run_monitoring_cycle exCfg true "" exInputHealthy
              exDbAfterN).2.1.alerts =
            exDbAfterN.alerts ++ new ∧
          ∀ r ∈ new, r.resolved = false) ∧
      alertGeneratedCount
        (run_monitoring_cycle exCfg true "" exInputHealthy
          exDbAfterN).2.2 = 0 :=
  ⟨(C3_resolution_never_happens exCfg true "" exInputHealthy exDbAfterN).1,
   (C3_resolution_never_happens exCfg true "" exInputHealthy exDbAfterN).2
     (by decide) (by decide)⟩

end SysMon

namespace SysMon

/-- C5 counterexample: when the snapshot INSERT fails, `store_metrics`
swallows the exception (error log only) and `run_monitoring_cycle` carries
on: nothing is persisted, yet auto-export runs, service evaluation runs and
one notification is dispatched on the unpersisted snapshot — the cycle is
not aborted and no `StorageError` is surfaced to the caller. -/
theorem C5_counterexample :
    (run_monitoring_cycle exCfg false "disk I/O error" exInputStopped
          DB.init).2.1.system_metrics = [] ∧
      LogEvent.storeFailed "disk I/O error" ∈
        (run_monitoring_cycle exCfg false "disk I/O error" exInputStopped
          DB.init).2.2 ∧
      alertGeneratedCount
          (run_monitoring_cycle exCfg false "disk I/O error" exInputStopped
            DB.init).2.2 = 1 ∧
      LogEvent.exportedTo "system_info.json" ∈
        (run_monitoring_cycle exCfg false "disk I/O error" exInputStopped
          DB.init).2.2 ∧
      LogEvent.cycleDone ∈
        (run_monitoring_cycle exCfg false "disk I/O error" exInputStopped
          DB.init).2.2 := by decide

/-- C5 amended: a storage failure is caught inside `store_metrics` and
logged as `"Failed to store metrics"`; the snapshot row is dropped, but the
rest of the cycle still runs — the alerts table ends exactly as if
`monitor_services` had run on the unchanged database — and the cycle
completes (so the process survives to the next tick). -/
theorem C5_storage_failure_swallowed (cfg : Config) (err : String)
    (inp : CollectorInput) (db : DB) :
    (run_monitoring_cycle cfg false err inp db).2.1.system_metrics =
        db.system_metrics ∧
      LogEvent.storeFailed err ∈
        (run_monitoring_cycle cfg false err inp db).2.2 ∧
      (run_monitoring_cycle cfg false err inp db).2.1.alerts =
        (monitor_services cfg inp db).1.alerts ∧
      LogEvent.cycleDone ∈
        (run_monitoring_cycle cfg false err inp db).2.2 := by
  refine ⟨?_, ?_, ?_, ?_⟩
  · simp only [run_monitoring_cycle, store_metrics]
    exact monitor_services_metrics cfg inp db
  · simp only [run_monitoring_cycle, store_metrics]
    simp [List.mem_append]
  · simp only [run_monitoring_cycle, store_metrics]
    simp
  · simp only [run_monitoring_cycle, store_metrics]
    simp [List.mem_append]

/-- C6 counterexample: persisting the same condition `(ServiceDown, WinRM)`
twice yields two distinct rows with autoincremented ids 1 and 2 — the
alerts relation is not keyed by a condition-derived id and holds more than
one row for the condition. -/
theorem C6_counterexample :
    (send_alert exCfg 7500
        (send_alert exCfg 7200 DB.init "Service Stopped"
          "Critical service WinRM is stopped").1
        "Service Stopped" "Critical service WinRM is stopped").1.alerts =
      [{ id := 1, timestamp := 7200, alert_type := "Service Stopped",
         message := "Critical service WinRM is stopped", resolved := false },
       { id := 2, timestamp := 7500, alert_type := "Service Stopped",
         message := "Critical service WinRM is stopped",
         resolved := false }] := by decide

/-- C6 amended: `send_alert` is a plain INSERT with a fresh AUTOINCREMENT
id: each enabled call appends exactly one new row (with `resolved = false`)
whose id differs from the id of every existing row, and leaves the existing rows
untouched — so repeat persistences of the same condition accumulate
duplicate rows instead of updating one row keyed by the condition. -/
theorem C6_insert_never_upsert (cfg : Config) (now : Nat) (db : DB)
    (t m : String) (h : cfg.alerting.enabled = true)
    (hids : ∀ r ∈ db.alerts, r.id < db.next_alert_id) :
    (send_alert cfg now db t m).1.alerts =
        db.alerts ++
          [{ id := db.next_alert_id, timestamp := now, alert_type := t,
             message := m, resolved := false }] ∧
      (∀ r ∈ db.alerts, r.id ≠ db.next_alert_id) ∧
      ∀ r ∈ (send_alert cfg now db t m).1.alerts,
        r.id < (send_alert cfg now db t m).1.next_alert_id := by
  refine ⟨?_, ?_, ?_⟩
  · rw [send_alert_enabled cfg now db t m h]
  · intro r hr
    exact Nat.ne_of_lt (hids r hr)
  · intro r hr
    rw [send_alert_enabled cfg now db t m h] at hr ⊢
    simp only [List.mem_append, List.mem_singleton] at hr
    rcases hr with h1 | h1
    · exact Nat.lt_trans (hids r h1) (Nat.lt_succ_self _)
    · rw [h1]
      exact Nat.lt_succ_self _

/-- Witness for C6 amended: the first insert into a fresh database. -/
theorem C6_insert_never_upsert_witness :
    (send_alert exCfg 7200 DB.init "Service Stopped"
        "Critical service WinRM is stopped").1.alerts =
      DB.init.alerts ++
        [{ id := DB.init.next_alert_id, timestamp := 7200,
           alert_type := "Service Stopped",
           message := "Critical service WinRM is stopped",
           resolved := false }] :=
  (C6_insert_never_upsert exCfg 7200 DB.init "Service Stopped"
    "Critical service WinRM is stopped" (by decide) (by simp [DB.init])).1

end SysMon

namespace SysMon

lemma read_disk_all_failed (ps : List PartitionProbe)
    (h : ∀ p ∈ ps, p.usage = none) :
    read_disk_partitions ps =
      ([], ps.map (fun p => LogEvent.partitionReadFailed p.mountpoint)) := by
  induction ps with
  | nil => simp [read_disk_partitions]
  | cons p rest ih =>
      have hp : p.usage = none := h p (List.mem_cons_self p rest)
      have hrest : ∀ q ∈ rest, q.usage = none := fun q hq =>
        h q (List.mem_cons_of_mem p hq)
      simp [read_disk_partitions, hp, ih hrest]

/-- C8 counterexample: every disk probe of the cycle fails, the failure is
logged, and the cycle still persists a snapshot — but `disk_usage_percent`
is recorded as `0`, not marked absent, contradicting "missing fields marked
absent rather than recorded as zero". -/
theorem C8_counterexample :
    (run_monitoring_cycle exCfg true "" exInputDiskFail
          DB.init).2.1.system_metrics =
        [{ id := 1, timestamp := 7200, cpu_percent := 10,
           memory_percent := 50, memory_available_gb := 8,
           disk_usage_percent := 0,
           service_status :=
             [("WinRM", { status := "Running", start_mode := some "Auto",
                          started := some true, error := none })] }] ∧
      LogEvent.partitionReadFailed "C:\\" ∈
        (run_monitoring_cycle exCfg true "" exInputDiskFail
          DB.init).2.2 := by decide

/-- C8 amended: when every disk probe fails, each failure is logged as a
warning and skipped, and the cycle still completes and persists a snapshot
— but with `disk_usage_percent` stored as `0` (zero, not absent), while the
CPU and memory gauges are persisted unchanged. -/
theorem C8_disk_failure_stored_as_zero (cfg : Config) (err : String)
    (inp : CollectorInput) (db : DB)
    (hall : ∀ p ∈ inp.partitions, p.usage = none) :
    (run_monitoring_cycle cfg true err inp db).2.1.system_metrics =
        db.system_metrics ++
          [{ id := db.next_metric_id, timestamp := inp.now,
             cpu_percent := inp.cpu_percent,
             memory_percent := inp.memory_percent,
             memory_available_gb := inp.memory_available_gb,
             disk_usage_percent := 0,
             service_status :=
               (check_windows_services inp.wmi
                 cfg.monitoring.critical_services).1 }] ∧
      ∀ p ∈ inp.partitions,
        LogEvent.partitionReadFailed p.mountpoint ∈
          (run_monitoring_cycle cfg true err inp db).2.2 := by
  have hrd := read_disk_all_failed inp.partitions hall
  constructor
  · simp only [run_monitoring_cycle]
    rw [monitor_services_metrics]
    simp only [store_metrics, get_windows_system_info, hrd]
    simp
  · intro p hp
    have h1 : LogEvent.partitionReadFailed p.mountpoint ∈
        (get_windows_system_info cfg inp).2 := by
      simp only [get_windows_system_info, hrd]
      exact List.mem_cons_of_mem _
        (List.mem_append_left _ (List.mem_append_left _
          (List.mem_append_left _ (List.mem_map.mpr ⟨p, hp, rfl⟩))))
    simp only [run_monitoring_cycle]
    exact List.mem_cons_of_mem _
      (List.mem_append_left _ (List.mem_append_left _
        (List.mem_append_left _ (List.mem_append_left _ h1))))

/-- Witness for C8 amended at the failing-probe fixture. -/
theorem C8_disk_failure_stored_as_zero_witness :
    (run_monitoring_cycle exCfg true "" exInputDiskFail
          DB.init).2.1.system_metrics =
        DB.init.system_metrics ++
          [{ id := DB.init.next_metric_id, timestamp := exInputDiskFail.now,
             cpu_percent := exInputDiskFail.cpu_percent,
             memory_percent := exInputDiskFail.memory_percent,
             memory_available_gb := exInputDiskFail.memory_available_gb,
             disk_usage_percent := 0,
             service_status :=
               (check_windows_services exInputDiskFail.wmi
                 exCfg.monitoring.critical_services).1 }] :=
  (C8_disk_failure_stored_as_zero exCfg "" exInputDiskFail DB.init
    (by decide)).1

/-- C9 counterexample: a configuration with `interval_minutes = -5` and
`cpu_threshold = 150` is accepted by `_load_config` without any error —
the returned configuration carries the invalid values verbatim and the
only log line is the normal "Configuration loaded" message. -/
theorem C9_counterexample :
    (load_config "monitor_config.yaml"
          (some { monitoring := some exBadMonitoring })).1.monitoring.interval_minutes
        = -5 ∧
      (load_config "monitor_config.yaml"
          (some { monitoring := some exBadMonitoring })).1.monitoring.cpu_threshold
        = 150 ∧
      (load_config "monitor_config.yaml"
          (some { monitoring := some exBadMonitoring })).2 =
        [.configLoaded "monitor_config.yaml"] := by decide

/-- C9 amended: `_load_config` performs no validation: a monitoring section
with a negative interval or a threshold outside `[0, 100]` is installed
verbatim at load time and startup proceeds normally (only a missing file is
handled, by falling back to the defaults). -/
theorem C9_no_validation (file : String) (m : MonitoringConfig)
    (_hbad : m.interval_minutes < 0 ∨ m.cpu_threshold < 0 ∨
      100 < m.cpu_threshold ∨ m.memory_threshold < 0 ∨
      100 < m.memory_threshold) :
    (load_config file (some { monitoring := some m })).1.monitoring = m ∧
      (load_config file (some { monitoring := some m })).2 =
        [.configLoaded file] :=
  ⟨rfl, rfl⟩

/-- Witness for C9 amended at the invalid fixture section. -/
theorem C9_no_validation_witness :
    (load_config "monitor_config.yaml"
        (some { monitoring := some exBadMonitoring })).1.monitoring =
      exBadMonitoring :=
  (C9_no_validation "monitor_config.yaml" exBadMonitoring
    (Or.inl (by decide))).1

end SysMon

namespace SysMon

lemma filter_group (rows : List MetricRow) (cutoff : Nat) (h : Nat) :
    (rows.filter (fun r => cutoff < r.timestamp)).filter
        (fun r => hourOf r.timestamp = h) =
      rows.filter
        (fun r => cutoff < r.timestamp ∧ hourOf r.timestamp = h) := by
  rw [List.filter_filter]
  refine List.filter_congr ?_
  intro r _
  rw [Bool.decide_and, Bool.and_comm]

end SysMon

namespace SysMon

/-- C7: the hourly aggregation groups the stored rows of the window by
truncating the timestamp to the hour and returns one bucket per hour that
actually has samples — holding the sample count, averages and
maxima — while hours with zero samples inside the window produce no bucket
at all (sparse output; every bucket has `0 < samples`). -/
theorem C7_hourly_buckets_sparse (rows : List MetricRow) (cutoff : Nat) :
    ((metrics_timeline rows cutoff).map (fun b => b.hour)).Nodup ∧
      (∀ h : Nat,
        (∃ b ∈ metrics_timeline rows cutoff, b.hour = h) ↔
          ∃ r ∈ rows, cutoff < r.timestamp ∧ hourOf r.timestamp = h) ∧
      ∀ b ∈ metrics_timeline rows cutoff,
        0 < b.samples ∧
        b.samples =
          (rows.filter (fun r =>
            cutoff < r.timestamp ∧ hourOf r.timestamp = b.hour)).length ∧
        b.avg_cpu =
          ((rows.filter (fun r =>
              cutoff < r.timestamp ∧ hourOf r.timestamp = b.hour)).map
            (fun r => r.cpu_percent)).sum / (b.samples : ℚ) ∧
        b.max_cpu =
          sql_max ((rows.filter (fun r =>
              cutoff < r.timestamp ∧ hourOf r.timestamp = b.hour)).map
            (fun r => r.cpu_percent)) ∧
        b.avg_memory =
          ((rows.filter (fun r =>
              cutoff < r.timestamp ∧ hourOf r.timestamp = b.hour)).map
            (fun r => r.memory_percent)).sum / (b.samples : ℚ) ∧
        b.max_memory =
          sql_max ((rows.filter (fun r =>
              cutoff < r.timestamp ∧ hourOf r.timestamp = b.hour)).map
            (fun r => r.memory_percent)) := by
  refine ⟨?_, ?_, ?_⟩
  · have hmap : (metrics_timeline rows cutoff).map (fun b => b.hour) =
        ((rows.filter (fun r => cutoff < r.timestamp)).map
          (fun r => hourOf r.timestamp)).dedup := by
      simp [metrics_timeline, List.map_map, Function.comp_def]
    rw [hmap]
    exact List.nodup_dedup _
  · intro h
    simp only [metrics_timeline, List.mem_map, List.mem_dedup,
      List.mem_filter, decide_eq_true_eq]
    constructor
    · rintro ⟨b, ⟨h', ⟨r, ⟨hr, hcut⟩, hhr⟩, rfl⟩, hb⟩
      exact ⟨r, hr, hcut, by simpa using hb ▸ hhr⟩
    · rintro ⟨r, hr, hcut, hhr⟩
      exact ⟨_, ⟨hourOf r.timestamp, ⟨r, ⟨hr, hcut⟩, rfl⟩, rfl⟩, hhr⟩
  · intro b hb
    simp only [metrics_timeline, List.mem_map, List.mem_dedup] at hb
    obtain ⟨h, hh, rfl⟩ := hb
    have hlen : 0 < ((rows.filter (fun r => cutoff < r.timestamp)).filter
        (fun r => hourOf r.timestamp = h)).length := by
      rw [List.length_pos]
      obtain ⟨r, hr, hhr⟩ := hh
      exact List.ne_nil_of_mem
        (List.mem_filter.mpr ⟨hr, by simpa using hhr⟩)
    refine ⟨hlen, ?_, ?_, ?_, ?_, ?_⟩ <;>
      simp [filter_group rows cutoff h]

end SysMon


namespace SysMon

/-- Witness for C7 over the scenario rows of the spec (samples only in hours 1
and 3): buckets exist for hours 1 and 3, none for the empty hour 2, and the
hour-1 bucket has strictly positive sample count. -/
theorem C7_hourly_buckets_sparse_witness :
    (∃ b ∈ metrics_timeline exRows 0, b.hour = 1) ∧
      (∃ b ∈ metrics_timeline exRows 0, b.hour = 3) ∧
      ¬(∃ b ∈ metrics_timeline exRows 0, b.hour = 2) :=
  ⟨((C7_hourly_buckets_sparse exRows 0).2.1 1).mpr (by decide),
   ((C7_hourly_buckets_sparse exRows 0).2.1 3).mpr (by decide),
   fun hc =>
     absurd (((C7_hourly_buckets_sparse exRows 0).2.1 2).mp hc) (by decide)⟩

end SysMon
